import Mathlib

/-!
Shallow embedding of `vlcclient.py` (DerMitch/py-vlcclient), a telnet client
for VLC's remote-control interface.

Bytes on the wire are modelled as `List Char` (the protocol is ASCII, and the
Python code only ever encodes/decodes UTF-8 text).  The telnet connection is
modelled by an explicit input byte stream (the bytes the server will send) and
an explicit output trace (the bytes the client writes); each operation returns
its outcome together with the bytes written and the part of the input stream
not yet consumed.  Exceptions raised by the Python code become `Except`
errors; `connect` additionally returns the object state at the moment of
return or raise, since `self` is mutated along the way.
-/

/-- Wire bytes, modelled as characters. -/
abbrev Bytes := List Char

/-- `isPrefixList p s` is true iff `p` occurs at the very start of `s`. -/
def isPrefixList : Bytes → Bytes → Bool
  | [], _ => true
  | _ :: _, [] => false
  | a :: as, b :: bs => a == b && isPrefixList as bs

/-- `isSuffixList p s` is true iff `s` ends with `p`. -/
def isSuffixList (p s : Bytes) : Bool :=
  isPrefixList p.reverse s.reverse

/-- Index of the leftmost occurrence of `pat` inside `s` (substring search,
as Python `str.find` / `re` literal search). -/
def findSub (pat s : Bytes) : Option Nat :=
  (List.range (s.length + 1)).find? fun i => isPrefixList pat (s.drop i)

/-- Python `pat in s` for byte strings. -/
def containsSub (pat s : Bytes) : Bool :=
  (findSub pat s).isSome

/-- `telnetlib.Telnet.read_until(sentinel)`: consume the shortest prefix of
the stream that ends with `sentinel` and return it (sentinel included)
together with the unconsumed rest; `none` models blocking forever / timing
out because the sentinel never arrives. -/
def readUntil (sentinel s : Bytes) : Option (Bytes × Bytes) :=
  match findSub sentinel s with
  | none => none
  | some i => some (s.take (i + sentinel.length), s.drop (i + sentinel.length))

/-- The Python slice `buf[1:-3]`: drop the first byte and the trailing three
bytes (empty when the buffer has at most four bytes, as in Python). -/
def pySlice1m3 (l : Bytes) : Bytes :=
  (l.drop 1).take (l.length - 4)

/-- Python string (byte-string) comparison `a < b`: lexicographic on code
points, a strict prefix being smaller. -/
def strLtB : Bytes → Bytes → Bool
  | [], [] => false
  | [], _ :: _ => true
  | _ :: _, [] => false
  | a :: as, b :: bs =>
    if a < b then true
    else if b < a then false
    else strLtB as bs

/-- Python list comparison over lists of strings, `a < b`: first differing
element decides by string comparison, a strict prefix being smaller. -/
def strListLtB : List Bytes → List Bytes → Bool
  | [], [] => false
  | [], _ :: _ => true
  | _ :: _, [] => false
  | a :: as, b :: bs =>
    if strLtB a b then true
    else if strLtB b a then false
    else strListLtB as bs

/-- Python `a > b` on lists of strings, as in `version > self.server_version_tuple`. -/
def strListGtB (a b : List Bytes) : Bool :=
  strListLtB b a

/-- Python `s.split('.')`: "3.0.11" becomes ["3", "0", "11"]. -/
def splitDots : Bytes → List Bytes
  | [] => [[]]
  | c :: cs =>
    if c == '.' then [] :: splitDots cs
    else
      match splitDots cs with
      | [] => [[c]]
      | g :: gs => (c :: g) :: gs

/-- ASCII whitespace, as stripped by Python `bytes.strip()`. -/
def isPyWhitespace (c : Char) : Bool :=
  c == ' ' || c == '\t' || c == '\n' || c == '\r' || c == '\x0b' || c == '\x0c'

/-- Python `buf.strip()`: remove leading and trailing ASCII whitespace. -/
def pyStrip (l : Bytes) : Bytes :=
  ((l.dropWhile isPyWhitespace).reverse.dropWhile isPyWhitespace).reverse

/-- The literal part of the greeting pattern `r"VLC media player ([\d.]+)"`. -/
def greetingLit : Bytes := "VLC media player ".data

/-- Maximal leading run of characters matched by `[\d.]` (digits and dots),
the capture group of the greeting pattern. -/
def verRun : Bytes → Bytes
  | [] => []
  | c :: cs => if c.isDigit || c == '.' then c :: verRun cs else []

/-- Try to match the greeting regex at position `i` of the stream: the
literal `"VLC media player "` followed by at least one `[\d.]` character.
On success, return the captured version text and the stream index just past
the whole match. -/
def matchVersionAt (s : Bytes) (i : Nat) : Option (Bytes × Nat) :=
  if isPrefixList greetingLit (s.drop i) then
    let run := verRun (s.drop (i + greetingLit.length))
    if run.isEmpty then none
    else some (run, i + greetingLit.length + run.length)
  else none

/-- `telnet.expect([r"VLC media player ([\d.]+)"])`: leftmost match of the
greeting regex in the stream; consume through the end of the match.  `none`
models the call blocking / timing out with no match. -/
def expectVersion (s : Bytes) : Option (Bytes × Bytes) :=
  match (List.range (s.length + 1)).findSome? (fun i => matchVersionAt s i) with
  | none => none
  | some (ver, stop) => some (ver, s.drop stop)

/-- `telnet.expect([p1, p2])` with two literal patterns: consume the shortest
prefix of the stream ending with either literal, returning the text read
(match included) and the rest.  `none` models no match arriving. -/
def expect2 (p1 p2 s : Bytes) : Option (Bytes × Bytes) :=
  match (List.range (s.length + 1)).find?
      (fun n => isSuffixList p1 (s.take n) || isSuffixList p2 (s.take n)) with
  | none => none
  | some n => some (s.take n, s.drop n)

/-- The telnet connection object held in `self.telnet`. -/
structure TelnetConn where
  isOpen : Bool
deriving Repr, DecidableEq

/-- The mutable state of a `VLCClient` instance: the fields of `__init__`
that the modelled methods read or write.  `server_version` is the raw
captured version text (Python keeps it as bytes); `server_version_tuple` is
its `'.'`-split list of component *strings* (the code never converts them to
integers). -/
structure VLCClient where
  password : Bytes
  telnet : Option TelnetConn
  server_version : Option Bytes
  server_version_tuple : List Bytes
deriving Repr, DecidableEq

/-- Exceptions the modelled code can raise. -/
inductive VLCError where
  /-- A failing `assert` statement (`AssertionError`). -/
  | assertionError
  /-- Attribute access on `None` (`AttributeError`), e.g. `self.telnet.write`
  after `disconnect`. -/
  | attributeError
  /-- `read_until` / `expect` never seeing its pattern (blocking forever or
  timing out). -/
  | timeoutError
  /-- `WrongPasswordError`. -/
  | wrongPassword
  /-- `OldServerVersion`. -/
  | oldServerVersion
deriving Repr, DecidableEq

/-- A fresh client, as built by `__init__`: no connection, no version. -/
def VLCClient.init (password : Bytes) : VLCClient :=
  { password := password
    telnet := none
    server_version := none
    server_version_tuple := [] }

/-- Result of a command method: the outcome (reply bytes or exception), the
bytes written to the socket, and the unconsumed input stream. -/
structure CmdResult where
  outcome : Except VLCError Bytes
  written : Bytes
  remaining : Bytes
deriving Repr

/-- Result of `connect`: outcome, the object state when the call returned or
raised, the bytes written, and the unconsumed input stream. -/
structure ConnectResult where
  outcome : Except VLCError Unit
  state : VLCClient
  written : Bytes
  remaining : Bytes
deriving Repr

/-- `VLCClient.connect(self)`: assert not yet connected, open the socket,
`expect` the greeting and store `server_version` (captured text) and
`server_version_tuple` (its `'.'`-split component strings), `read_until` the
password prompt, write the password and a newline, then `expect` either
another password prompt or the `>` shell prompt; if the text read contains
`"Password"` raise `WrongPasswordError`.  The state returned is the object
state at the point of return or raise (Python mutates `self` in place and
does no cleanup on failure). -/
def VLCClient.connect (st : VLCClient) (stream : Bytes) : ConnectResult :=
  match st.telnet with
  | some _ => ⟨.error .assertionError, st, [], stream⟩
  | none =>
    let st1 : VLCClient := { st with telnet := some ⟨true⟩ }
    match expectVersion stream with
    | none => ⟨.error .timeoutError, st1, [], []⟩
    | some (ver, rest1) =>
      let st2 : VLCClient :=
        { st1 with server_version := some ver, server_version_tuple := splitDots ver }
      match readUntil "Password: ".data rest1 with
      | none => ⟨.error .timeoutError, st2, [], []⟩
      | some (_, rest2) =>
        let written := st.password ++ ['\n']
        match expect2 "Password: ".data ">".data rest2 with
        | none => ⟨.error .timeoutError, st2, written, []⟩
        | some (text, rest3) =>
          if containsSub "Password".data text then
            ⟨.error .wrongPassword, st2, written, rest3⟩
          else
            ⟨.ok (), st2, written, rest3⟩

/-- `VLCClient.disconnect(self)`: `self.telnet.close(); self.telnet = None`.
When there is no connection, the attribute access on `None` raises. -/
def VLCClient.disconnect (st : VLCClient) : Except VLCError Unit × VLCClient :=
  match st.telnet with
  | none => (.error .attributeError, st)
  | some _ => (.ok (), { st with telnet := none })

/-- `VLCClient._send_command(self, line)`: write `line + "\n"`, read until the
`>` prompt, and return the received buffer minus its first byte and its last
three bytes (`[1:-3]`).  With `self.telnet` set to `None` the attribute
access raises before anything is written; if the prompt never arrives the
line has been written but the read blocks. -/
def VLCClient._send_command (st : VLCClient) (stream : Bytes) (line : Bytes) : CmdResult :=
  match st.telnet with
  | none => ⟨.error .attributeError, [], stream⟩
  | some _ =>
    match readUntil ">".data stream with
    | none => ⟨.error .timeoutError, line ++ ['\n'], []⟩
    | some (recv, rest) => ⟨.ok (pySlice1m3 recv), line ++ ['\n'], rest⟩

/-- `VLCClient._require_version(self, command, version)`: split the version
string on `'.'` and raise `OldServerVersion` when the resulting list of
component strings compares greater (Python list-of-strings comparison) than
the stored `server_version_tuple`.  Reads `self` only; writes nothing to the
socket and mutates no field. -/
def VLCClient._require_version (st : VLCClient) (_command : Bytes) (version : Bytes) :
    Except VLCError Unit :=
  if strListGtB (splitDots version) st.server_version_tuple then
    .error .oldServerVersion
  else
    .ok ()

/-- `VLCClient.status(self)`: version guard first, then `_send_command("status")`.
A raise from the guard propagates before anything is written or read. -/
def VLCClient.status (st : VLCClient) (stream : Bytes) : CmdResult :=
  match st._require_version "status".data "2.0.0".data with
  | .error e => ⟨.error e, [], stream⟩
  | .ok _ => st._send_command stream "status".data

/-- `VLCClient.add(self, filename)`: `_send_command('add {0}'.format(filename))`. -/
def VLCClient.add (st : VLCClient) (stream : Bytes) (filename : Bytes) : CmdResult :=
  st._send_command stream ("add ".data ++ filename)

/-- `VLCClient.seek(self, second)`: `_send_command("seek {0}".format(second))`. -/
def VLCClient.seek (st : VLCClient) (stream : Bytes) (second : Int) : CmdResult :=
  st._send_command stream ("seek ".data ++ (toString second).data)

/-- Apply Python `.strip()` to the reply of a successful command. -/
def stripOutcome (r : CmdResult) : CmdResult :=
  { r with outcome := r.outcome.map pyStrip }

/-- `VLCClient.volume(self, vol=None)`: `if vol:` — so only a *truthy* `vol`
(present and nonzero) takes the `volume {0}` branch; `None` and `0` both take
the bare `volume` branch, whose reply is `.strip()`-ed. -/
def VLCClient.volume (st : VLCClient) (stream : Bytes) (vol : Option Int) : CmdResult :=
  match vol with
  | some v =>
    if v = 0 then stripOutcome (st._send_command stream "volume".data)
    else st._send_command stream ("volume ".data ++ (toString v).data)
  | none => stripOutcome (st._send_command stream "volume".data)

/-- Lexicographic order over *integer* version components — the order the
spec asserts the version guard uses.  This is a spec-side definition, kept
only to state how the code's string-list comparison diverges from it. -/
def natListLt : List Nat → List Nat → Bool
  | [], [] => false
  | [], _ :: _ => true
  | _ :: _, [] => false
  | a :: as, b :: bs =>
    if a < b then true
    else if b < a then false
    else natListLt as bs

/-- A client as it looks right after a successful `connect` to VLC 3.0.11. -/
def connSt : VLCClient :=
  { password := "admin".data
    telnet := some ⟨true⟩
    server_version := some "3.0.11".data
    server_version_tuple := splitDots "3.0.11".data }

/-- A connected client whose server reported version 1.5.0 (older than 2.0.0). -/
def stOld : VLCClient :=
  { connSt with
    server_version := some "1.5.0".data
    server_version_tuple := splitDots "1.5.0".data }

/-- A connected client whose server reported version 1.10.0. -/
def stOneTen : VLCClient :=
  { connSt with
    server_version := some "1.10.0".data
    server_version_tuple := splitDots "1.10.0".data }

/-- A connected client whose server reported version 10.0.0. -/
def stBig : VLCClient :=
  { connSt with
    server_version := some "10.0.0".data
    server_version_tuple := splitDots "10.0.0".data }

/-- A server byte stream for a successful handshake: greeting, password
prompt, then the `>` shell prompt. -/
def goodStream : Bytes := "VLC media player 3.0.11\nPassword: \n> ".data

/-- A server byte stream for a rejected password: greeting, password prompt,
then the password prompt again instead of the `>` shell prompt. -/
def rejStream : Bytes := "VLC media player 3.0.11\nPassword: \nPassword: ".data

/-- A greeting from a product that is not literally named `VLC`. -/
def fooStream : Bytes := "Foo media player 3.0.11\nPassword: \n> ".data

/-- Helper: whenever the connection handle is set, `_send_command` writes
the line plus exactly one newline, regardless of what the stream holds. -/
theorem send_command_written (st : VLCClient) (c : TelnetConn)
    (h : st.telnet = some c) (stream line : Bytes) :
    (st._send_command stream line).written = line ++ ['\n'] := by
  unfold VLCClient._send_command
  rw [h]
  cases hru : readUntil ">".data stream with
  | none => rfl
  | some p => obtain ⟨recv, rest⟩ := p; rfl

/-- Helper: `connect` on a session whose handle is already set fails the
`connect() called twice` assertion immediately. -/
theorem connect_already_connected (st : VLCClient) (c : TelnetConn)
    (h : st.telnet = some c) (s : Bytes) :
    (st.connect s).outcome = .error .assertionError := by
  unfold VLCClient.connect
  rw [h]

/-- Claim C1: for every command line sent while connected, `_send_command`
writes the line followed by exactly one newline, reads until the `>` prompt
sentinel, and returns the received bytes minus the first byte and the
trailing three bytes; in particular, for the raw server byte stream
`"\nPlaying\r\n> "` the extracted reply payload is exactly `"Playing"`. -/
theorem claim_C1_send_command_framing (st : VLCClient) (c : TelnetConn)
    (h : st.telnet = some c) (line : Bytes) :
    (st._send_command "\nPlaying\r\n> ".data line).outcome = .ok "Playing".data
    ∧ (st._send_command "\nPlaying\r\n> ".data line).written = line ++ ['\n']
    ∧ ∀ stream recv rest, readUntil ">".data stream = some (recv, rest) →
        st._send_command stream line
          = ⟨.ok ((recv.drop 1).take (recv.length - 4)), line ++ ['\n'], rest⟩ := by
  have key : ∀ stream recv rest, readUntil ">".data stream = some (recv, rest) →
      st._send_command stream line
        = ⟨.ok ((recv.drop 1).take (recv.length - 4)), line ++ ['\n'], rest⟩ := by
    intro stream recv rest hru
    unfold VLCClient._send_command
    rw [h, hru]
    rfl
  refine ⟨?_, ?_, key⟩
  · rw [key "\nPlaying\r\n> ".data "\nPlaying\r\n>".data " ".data rfl]
    rfl
  · rw [key "\nPlaying\r\n> ".data "\nPlaying\r\n>".data " ".data rfl]

/-- Witness for C1 at a concrete connected client and command line. -/
theorem claim_C1_send_command_framing_witness :
    connSt.telnet = some ⟨true⟩
    ∧ ((connSt._send_command "\nPlaying\r\n> ".data "status".data).outcome
          = .ok "Playing".data
        ∧ (connSt._send_command "\nPlaying\r\n> ".data "status".data).written
          = "status".data ++ ['\n']
        ∧ ∀ stream recv rest, readUntil ">".data stream = some (recv, rest) →
            connSt._send_command stream "status".data
              = ⟨.ok ((recv.drop 1).take (recv.length - 4)), "status".data ++ ['\n'], rest⟩) :=
  ⟨rfl, claim_C1_send_command_framing connSt ⟨true⟩ rfl "status".data⟩

/-- Claim C2: the version guard is claimed to compare versions as integer
tuples, lexicographically.  The code instead compares `'.'`-split *string*
lists: with stored server version `1.10.0` and minimum version `1.9.0` the
guard raises `OldServerVersion`, although `(1,9,0) < (1,10,0)` in the
integer order, so an integer-order guard would pass.  (`"10" < "9"` as
strings — exactly the mistake the spec rules out.) -/
theorem claim_C2_version_compare_is_string_order :
    stOneTen.server_version_tuple = ["1".data, "10".data, "0".data]
    ∧ stOneTen._require_version "x".data "1.9.0".data = .error .oldServerVersion
    ∧ natListLt [1, 9, 0] [1, 10, 0] = true
    ∧ natListLt [1, 10, 0] [1, 9, 0] = false :=
  ⟨rfl, rfl, rfl, rfl⟩

/-- Claim C3: `status`'s guard `_require_version("status", "2.0.0")` is
claimed to fail iff the stored version is strictly below `(2,0,0)`.  With
stored server version `10.0.0` — not below `(2,0,0)` in integer order — the
guard still raises `OldServerVersion` (string comparison: `"2" > "10"`),
and `status` propagates it without writing anything. -/
theorem claim_C3_status_guard_rejects_ten :
    stBig.server_version_tuple = ["10".data, "0".data, "0".data]
    ∧ stBig._require_version "status".data "2.0.0".data = .error .oldServerVersion
    ∧ (stBig.status "".data).outcome = .error .oldServerVersion
    ∧ (stBig.status "".data).written = []
    ∧ natListLt [10, 0, 0] [2, 0, 0] = false :=
  ⟨rfl, rfl, rfl, rfl, rfl⟩

/-- Claim C4 counterexample: on the password-rejection stream, `connect`
does raise the wrong-password error, but the connection handle is *not*
cleared and the socket is *not* closed — the session is not Unconnected,
contradicting the claim at this concrete input. -/
theorem claim_C4_counterexample :
    ((VLCClient.init "admin".data).connect rejStream).outcome = .error .wrongPassword
    ∧ ((VLCClient.init "admin".data).connect rejStream).state.telnet = some ⟨true⟩
    ∧ ¬ ((VLCClient.init "admin".data).connect rejStream).state.telnet = none :=
  ⟨rfl, rfl, by decide⟩

/-- Claim C4 (amended): when the server rejects the password, `connect` on a
fresh client fails with the wrong-password error, but the connection handle
remains set (the socket stays open and the session does not return to
Unconnected), so a subsequent `connect` on the same session is rejected by
the connect-called-twice assertion rather than permitted. -/
theorem claim_C4_wrong_password_leaves_handle_set (pw stream : Bytes)
    (h : ((VLCClient.init pw).connect stream).outcome = .error .wrongPassword) :
    ((VLCClient.init pw).connect stream).state.telnet = some ⟨true⟩
    ∧ ∀ s2, (((VLCClient.init pw).connect stream).state.connect s2).outcome
        = .error .assertionError := by
  have hset : ((VLCClient.init pw).connect stream).state.telnet = some ⟨true⟩ := by
    unfold VLCClient.connect VLCClient.init
    dsimp only
    cases hev : expectVersion stream with
    | none => rfl
    | some p =>
      obtain ⟨ver, rest1⟩ := p
      dsimp only
      cases hru : readUntil "Password: ".data rest1 with
      | none => rfl
      | some q =>
        obtain ⟨t, rest2⟩ := q
        dsimp only
        cases hex : expect2 "Password: ".data ">".data rest2 with
        | none => rfl
        | some r =>
          obtain ⟨text, rest3⟩ := r
          dsimp only
          by_cases hc : containsSub "Password".data text = true
          · simp only [hc, if_true]
          · simp only [hc]
            rfl
  exact ⟨hset, fun s2 => connect_already_connected _ ⟨true⟩ hset s2⟩

/-- Witness for the amended C4 at the concrete rejection stream. -/
theorem claim_C4_wrong_password_leaves_handle_set_witness :
    ((VLCClient.init "admin".data).connect rejStream).state.telnet = some ⟨true⟩
    ∧ ∀ s2, (((VLCClient.init "admin".data).connect rejStream).state.connect s2).outcome
        = .error .assertionError :=
  claim_C4_wrong_password_leaves_handle_set "admin".data rejStream rfl

/-- Claim C5 counterexample: the greeting pattern requires the product name
to be literally `VLC` — `r"VLC media player ([\d.]+)"` — so the greeting
`"Foo media player 3.0.11"` never matches: `connect` blocks in `expect`
(modelled as a timeout) and stores no version at all, contradicting the
claim that any product name `X` yields the stored version `(3,0,11)`. -/
theorem claim_C5_counterexample :
    expectVersion fooStream = none
    ∧ ((VLCClient.init "admin".data).connect fooStream).outcome = .error .timeoutError
    ∧ ((VLCClient.init "admin".data).connect fooStream).state.server_version = none
    ∧ ((VLCClient.init "admin".data).connect fooStream).state.server_version_tuple = [] :=
  ⟨rfl, rfl, rfl, rfl⟩

/-- Claim C5 (amended): for greetings whose product name is literally `VLC`
(pattern `"VLC media player <version>"`, version a sequence of dot-separated
integers), `connect` extracts and stores the version — as the raw text
`"3.0.11"` and its `'.'`-split component strings `("3","0","11")` — at
connect time; `disconnect` leaves both fields unchanged, and no other
operation writes them. -/
theorem claim_C5_greeting_version_stored (pw : Bytes) :
    ((VLCClient.init pw).connect goodStream).outcome = .ok ()
    ∧ ((VLCClient.init pw).connect goodStream).state.server_version = some "3.0.11".data
    ∧ ((VLCClient.init pw).connect goodStream).state.server_version_tuple
        = ["3".data, "0".data, "11".data]
    ∧ ∀ st : VLCClient, (st.disconnect).2.server_version = st.server_version
        ∧ (st.disconnect).2.server_version_tuple = st.server_version_tuple := by
  refine ⟨rfl, rfl, rfl, ?_⟩
  intro st
  unfold VLCClient.disconnect
  cases h : st.telnet with
  | none => exact ⟨rfl, rfl⟩
  | some c => exact ⟨rfl, rfl⟩

/-- Claim C6: `status` runs the version guard before sending anything; when
the guard raises the server-too-old error, the error propagates with no
bytes written and no bytes read from the stream.  (In the model, as in the
code, `_require_version` is a pure function of the session state: it
performs no I/O and mutates no field, so nothing changes on failure.) -/
theorem claim_C6_status_guard_pure (st : VLCClient) (stream : Bytes)
    (h : st._require_version "status".data "2.0.0".data = .error .oldServerVersion) :
    st.status stream = ⟨.error .oldServerVersion, [], stream⟩ := by
  unfold VLCClient.status
  rw [h]

/-- Witness for C6 at a concrete session whose server is 1.5.0. -/
theorem claim_C6_status_guard_pure_witness :
    stOld.status "\nfoo\r\n> ".data = ⟨.error .oldServerVersion, [], "\nfoo\r\n> ".data⟩ :=
  claim_C6_status_guard_pure stOld "\nfoo\r\n> ".data rfl

/-- Claim C7: `disconnect` on a connected session succeeds, clears the
stored connection handle (the session is Unconnected again), and afterwards
every `_send_command` call fails on the cleared handle — the attribute
access on `None` raises before any byte is written — rather than silently
succeeding. -/
theorem claim_C7_disconnect_then_send_rejected (st : VLCClient) (c : TelnetConn)
    (h : st.telnet = some c) :
    (st.disconnect).1 = .ok ()
    ∧ (st.disconnect).2.telnet = none
    ∧ ∀ stream line, (st.disconnect).2._send_command stream line
        = ⟨.error .attributeError, [], stream⟩ := by
  unfold VLCClient.disconnect
  rw [h]
  refine ⟨rfl, rfl, ?_⟩
  intro stream line
  unfold VLCClient._send_command
  rfl

/-- Witness for C7 at a concrete connected client. -/
theorem claim_C7_disconnect_then_send_rejected_witness :
    (connSt.disconnect).1 = .ok ()
    ∧ (connSt.disconnect).2.telnet = none
    ∧ ∀ stream line, (connSt.disconnect).2._send_command stream line
        = ⟨.error .attributeError, [], stream⟩ :=
  claim_C7_disconnect_then_send_rejected connSt ⟨true⟩ rfl

/-- Claim C8: each facade command issues exactly one `_send_command` with the
exact formatted line — `add("song.mp3")` writes `"add song.mp3"` + newline,
`seek(42)` writes `"seek 42"` + newline, `volume(80)` writes `"volume 80"` +
newline, and `volume()` writes the bare `"volume"` + newline and returns the
reply with leading and trailing whitespace stripped. -/
theorem claim_C8_facade_command_lines (st : VLCClient) (c : TelnetConn)
    (h : st.telnet = some c) (stream : Bytes) :
    (st.add stream "song.mp3".data).written = "add song.mp3\n".data
    ∧ (st.seek stream 42).written = "seek 42\n".data
    ∧ (st.volume stream (some 80)).written = "volume 80\n".data
    ∧ (st.volume stream none).written = "volume\n".data
    ∧ ∀ recv rest, readUntil ">".data stream = some (recv, rest) →
        (st.volume stream none).outcome = .ok (pyStrip (pySlice1m3 recv)) := by
  refine ⟨?_, ?_, ?_, ?_, ?_⟩
  · unfold VLCClient.add
    rw [send_command_written st c h]
    rfl
  · unfold VLCClient.seek
    rw [send_command_written st c h]
    rfl
  · unfold VLCClient.volume
    dsimp only
    rw [if_neg (by decide : ¬ (80 : Int) = 0)]
    rw [send_command_written st c h]
    rfl
  · show (st._send_command stream "volume".data).written = "volume\n".data
    rw [send_command_written st c h]
    rfl
  · intro recv rest hru
    show ((st._send_command stream "volume".data).outcome.map pyStrip)
        = .ok (pyStrip (pySlice1m3 recv))
    unfold VLCClient._send_command
    rw [h, hru]
    rfl

/-- Witness for C8 at a concrete connected client and stream. -/
theorem claim_C8_facade_command_lines_witness :
    (connSt.add "\n260\r\n> ".data "song.mp3".data).written = "add song.mp3\n".data
    ∧ (connSt.seek "\n260\r\n> ".data 42).written = "seek 42\n".data
    ∧ (connSt.volume "\n260\r\n> ".data (some 80)).written = "volume 80\n".data
    ∧ (connSt.volume "\n260\r\n> ".data none).written = "volume\n".data
    ∧ ∀ recv rest, readUntil ">".data "\n260\r\n> ".data = some (recv, rest) →
        (connSt.volume "\n260\r\n> ".data none).outcome = .ok (pyStrip (pySlice1m3 recv)) :=
  claim_C8_facade_command_lines connSt ⟨true⟩ rfl "\n260\r\n> ".data

/-- Claim C9: because `volume` tests its argument with `if vol:` (truthiness,
not presence), the call `volume(0)` behaves exactly like `volume()` with no
argument: it sends the bare `"volume"` line and returns the stripped reply. -/
theorem claim_C9_volume_zero_like_no_argument (st : VLCClient) (stream : Bytes) :
    st.volume stream (some 0) = st.volume stream none := by
  unfold VLCClient.volume
  rfl

/-- Claim C10: whenever `connect` on a fresh client raises the wrong-password
error, the stored version fields are already populated from the greeting
(`server_version` holds the captured version text and `server_version_tuple`
its `'.'`-split components — they are set before authentication), and the
connection handle remains set rather than cleared: the session is not
restored to its pre-connect state. -/
theorem claim_C10_wrong_password_state_populated (pw stream : Bytes)
    (h : ((VLCClient.init pw).connect stream).outcome = .error .wrongPassword) :
    ∃ ver, ((VLCClient.init pw).connect stream).state.server_version = some ver
      ∧ ((VLCClient.init pw).connect stream).state.server_version_tuple = splitDots ver
      ∧ ((VLCClient.init pw).connect stream).state.telnet = some ⟨true⟩ := by
  unfold VLCClient.connect VLCClient.init at h ⊢
  dsimp only at h ⊢
  rcases hev : expectVersion stream with _ | ⟨ver, rest1⟩
  · rw [hev] at h
    simp at h
  · rw [hev] at h
    dsimp only at h ⊢
    rcases hru : readUntil "Password: ".data rest1 with _ | ⟨t, rest2⟩
    · rw [hru] at h
      simp at h
    · rw [hru] at h
      dsimp only at h ⊢
      rcases hex : expect2 "Password: ".data ">".data rest2 with _ | ⟨text, rest3⟩
      · rw [hex] at h
        simp at h
      · rw [hex] at h
        dsimp only at h ⊢
        by_cases hc : containsSub "Password".data text = true
        · rw [if_pos hc]
          exact ⟨ver, rfl, rfl, rfl⟩
        · rw [if_neg hc] at h
          simp at h

/-- Witness for C10 at the concrete rejection stream. -/
theorem claim_C10_wrong_password_state_populated_witness :
    ∃ ver, ((VLCClient.init "admin".data).connect rejStream).state.server_version = some ver
      ∧ ((VLCClient.init "admin".data).connect rejStream).state.server_version_tuple
          = splitDots ver
      ∧ ((VLCClient.init "admin".data).connect rejStream).state.telnet = some ⟨true⟩ :=
  claim_C10_wrong_password_state_populated "admin".data rejStream rfl
